import Mathlib

/-!
Verification development for the sensors-node firmware core
(crates/core: lib.rs, air_quality.rs, config.rs, mqtt.rs, sensors.rs).

The Rust code is shallowly embedded: pure functions become Lean functions,
machine integers become Nat (with explicit wrapping only where the source can
overflow, which none of the modelled code does on its value ranges), fallible
or panicking code returns Option/Except, and the stateful loops are modelled
as explicit step functions on their loop-carried state.
-/

namespace SensorsNode

/-- Error type of crates/core/src/lib.rs (enum Error). -/
inductive Error where
  | cannotConvertPayload
deriving DecidableEq, Repr

/-- Command type of crates/core/src/lib.rs (enum Command). -/
inductive Command where
  | rebootToReconfigure
deriving DecidableEq, Repr

/-- Embedding of TryFrom Publish for Command (crates/core/src/lib.rs, lines 31-46):
reject unless the payload has length exactly 1, then accept byte 48 (ASCII zero)
as RebootToReconfigure and reject any other byte.  The payload is modelled as the
list of its bytes; the source's indexing payload[0] after the length guard is
the list head (headD 0 is only evaluated under length = 1, where the default is
irrelevant), and the Rust match on the integer literal 48 is an equality test. -/
def Command.try_from (payload : List Nat) : Except Error Command :=
  if payload.length ≠ 1 then .error .cannotConvertPayload
  else if payload.headD 0 = 48 then .ok .rebootToReconfigure
  else .error .cannotConvertPayload

/-- GAS_LOWER_LIMIT of crates/core/src/air_quality.rs. -/
def GAS_LOWER_LIMIT : Nat := 5000

/-- GAS_UPPER_LIMIT of crates/core/src/air_quality.rs. -/
def GAS_UPPER_LIMIT : Nat := 50000

/-- GAS_LIMITS_DIFF of crates/core/src/air_quality.rs. -/
def GAS_LIMITS_DIFF : Nat := GAS_UPPER_LIMIT - GAS_LOWER_LIMIT

/-- The gas_ref binding of air_quality::calculate (lines 35-39): a Rust range
match clamping the gas reading to one of three constants.  The ranges
0..GAS_LOWER_LIMIT and GAS_LOWER_LIMIT..GAS_UPPER_LIMIT are half-open, i.e.
strict upper bounds. -/
def gas_ref (gas : Nat) : Nat :=
  if gas < GAS_LOWER_LIMIT then GAS_LOWER_LIMIT
  else if gas < GAS_UPPER_LIMIT then GAS_UPPER_LIMIT / 2
  else GAS_UPPER_LIMIT

/-- The gas_score binding of air_quality::calculate (line 41): u32 arithmetic,
75 * (gas_ref - GAS_LOWER_LIMIT) / GAS_LIMITS_DIFF with truncating division.
All intermediate values fit in u32 (at most 75 * 45000), so Nat arithmetic
is exact. -/
def gas_score (gas : Nat) : Nat :=
  75 * (gas_ref gas - GAS_LOWER_LIMIT) / GAS_LIMITS_DIFF

/-- OptionalSettings of crates/core/src/config.rs (lines 13-20).  The heapless
length-bounded strings are modelled as Lean strings; no modelled claim depends
on the length bounds. -/
structure OptionalSettings where
  wifi_ssid : Option String
  wifi_password : Option String
  mqtt_broker : Option String
  mqtt_client_id : Option String
  mqtt_topic : Option String
  reboot_to_reconfigure : Option Bool
deriving DecidableEq, Repr

/-- Settings of crates/core/src/config.rs (lines 37-44). -/
structure Settings where
  wifi_ssid : String
  wifi_password : String
  mqtt_broker : String
  mqtt_client_id : String
  mqtt_topic : String
  reboot_to_reconfigure : Bool
deriving DecidableEq, Repr

/-- SettingsEnum of crates/core/src/config.rs (lines 46-49). -/
inductive SettingsEnum where
  | Optional (s : OptionalSettings)
  | FilledIn (s : Settings)
deriving DecidableEq, Repr

/-- OptionalSettings::is_complete (config.rs lines 27-33): all five required
fields are present; the reboot flag is not consulted. -/
def OptionalSettings.is_complete (s : OptionalSettings) : Bool :=
  s.wifi_ssid.isSome && s.wifi_password.isSome && s.mqtt_broker.isSome
    && s.mqtt_client_id.isSome && s.mqtt_topic.isSome

/-- SettingsEnum::transmute (config.rs lines 52-86).  The source's
unreachable panic (line 75), reached only if the let-chain fails after
is_complete returned true, is modelled as the value none; every normal return
is some. -/
def SettingsEnum.transmute : SettingsEnum → Option SettingsEnum
  | .Optional settings =>
    if !settings.is_complete then some (.Optional settings)
    else
      match settings.wifi_ssid, settings.wifi_password, settings.mqtt_broker,
          settings.mqtt_client_id, settings.mqtt_topic with
      | some wifi_ssid, some wifi_password, some mqtt_broker,
          some mqtt_client_id, some mqtt_topic =>
        some (.FilledIn ⟨wifi_ssid, wifi_password, mqtt_broker, mqtt_client_id,
          mqtt_topic, settings.reboot_to_reconfigure.getD false⟩)
      | _, _, _, _, _ => none
  | .FilledIn settings =>
    some (.Optional ⟨some settings.wifi_ssid, some settings.wifi_password,
      some settings.mqtt_broker, some settings.mqtt_client_id,
      some settings.mqtt_topic, some settings.reboot_to_reconfigure⟩)

/-- Outcomes of one connection attempt in mqtt_loop (mqtt.rs lines 123-179):
the three failure exits that sleep and double the backoff (TCP connect error at
line 134, schedule_connect error at line 161, wait_for_connect error at line
169), and the successful CONNECT that resets the backoff (line 179). -/
inductive ConnectOutcome where
  | tcpConnectFailed
  | scheduleConnectFailed
  | connectPollFailed
  | connected
deriving DecidableEq, Repr

/-- The backoff update performed after each failed attempt (mqtt.rs lines 137,
164, 172): backoff = (backoff * 2).min(30).  u64 arithmetic; the value never
exceeds 60, so Nat is exact. -/
def backoff_update (b : Nat) : Nat := min (b * 2) 30

/-- How one attempt outcome transforms the backoff variable of mqtt_loop:
every failure sleeps the current backoff and then doubles-with-cap; a
successful CONNECT sets backoff = 1 (line 179). -/
def backoff_after (b : Nat) : ConnectOutcome → Nat
  | .connected => 1
  | .tcpConnectFailed => backoff_update b
  | .scheduleConnectFailed => backoff_update b
  | .connectPollFailed => backoff_update b

/-- Initial value of the backoff variable (mqtt.rs line 116: let mut backoff = 1u64). -/
def mqtt_initial_backoff : Nat := 1

/-- Backoff value after n consecutive failed attempts starting from the
initial (or freshly reset) value 1.  Since the sleep before a retry uses the
current backoff and the update happens after the sleep, the delay slept before
the n-th consecutive retry is backoffAfterFailures (n - 1). -/
def backoffAfterFailures : Nat → Nat
  | 0 => mqtt_initial_backoff
  | n + 1 => backoff_update (backoffAfterFailures n)

/-- Initial value of the warm-up skip counter of sensors::task
(sensors.rs line 87: let mut skip: u8 = 10). -/
def SENSORS_WARMUP_SKIPS : Nat := 10

/-- The pause taken by a skipped warm-up cycle (sensors.rs line 129:
Timer::after(Duration::from_secs(3))). -/
def WARMUP_PAUSE_SECS : Nat := 3

/-- The target acquisition period (sensors.rs line 168:
Duration::from_secs(60)). -/
def CYCLE_PERIOD_SECS : Nat := 60

/-- embassy_time Duration subtraction, used at sensors.rs line 168.  It is
implemented as checked_sub(rhs).expect(..), i.e. it panics on underflow;
the panic is modelled as none. -/
def duration_sub (a b : Nat) : Option Nat :=
  if b ≤ a then some (a - b) else none

/-- One iteration of the steady loop of sensors::task (sensors.rs lines
89-171), abstracted to its control flow: given the current skip counter and
the elapsed measurement time of this cycle (Instant::now() - start, in
seconds), it returns the new skip counter, whether a sample is enqueued this
cycle, and the delay slept before the next cycle (none models the Duration
subtraction panic).  A cycle with skip > 0 decrements skip, enqueues nothing
and sleeps a fixed 3 s (lines 126-131); a normal cycle enqueues one sample and
sleeps the 60 s target period minus the elapsed time (lines 162-170). -/
def acquisition_cycle (skip : Nat) (elapsed : Nat) : Nat × Bool × Option Nat :=
  if 0 < skip then (skip - 1, false, some WARMUP_PAUSE_SECS)
  else (skip, true, duration_sub CYCLE_PERIOD_SECS elapsed)

/-- Skip counter at the start of cycle n (0-indexed), obtained by iterating
the skip update of acquisition_cycle from the initial value 10. -/
def skip_before_cycle : Nat → Nat
  | 0 => SENSORS_WARMUP_SKIPS
  | n + 1 => (acquisition_cycle (skip_before_cycle n) 0).1

/-- SampleVersion of crates/core/src/sensors.rs (lines 20-24). -/
inductive SampleVersion where
  | V1
deriving DecidableEq, Repr

/-- Sample of crates/core/src/sensors.rs (lines 26-41).  timestamp is u32;
the f32 fields are abstracted as Int (only their rendered decimal text ever
matters to the modelled claims, never their arithmetic); gas_ohm and
aiq_score are u32, modelled as Nat. -/
structure Sample where
  version : SampleVersion
  timestamp : Nat
  temperature : Option Int
  pressure : Option Int
  humidity : Option Int
  hum_sht40 : Option Int
  temp_sht40 : Option Int
  press_bmp390 : Option Int
  temp_bmp390 : Option Int
  gas_ohm : Option Nat
  lux_veml7700 : Option Int
  lux_bh1750 : Option Int
  aiq_score : Option Nat
deriving DecidableEq, Repr

/-- A Sample with the given timestamp and every optional field absent
(the Default derive of the source: V1 version, zeroed timestamp replaced by
the given one, all options None). -/
def mkSample (ts : Nat) : Sample :=
  ⟨.V1, ts, none, none, none, none, none, none, none, none, none, none, none⟩

/-- build_payload of crates/core/src/mqtt.rs (lines 337-371), writing the
key/value pairs in source order into a JSON object.  Two deliberate modelling
notes, both documented divergences of the source itself:
(1) the source reads sample.temp_bme680, sample.press_bme680 and
sample.hum_bme680, but struct Sample declares no such fields — its
corresponding fields are named temperature, pressure and humidity, so
crates/core does not type-check as given; the model reads those three fields
under the keys the source writes;
(2) the heapless String<256> capacity (silent truncation via .ok()) is not
modelled, since the modelled claims only concern which keys are emitted. -/
def build_payload (sample : Sample) : String :=
  let payload := "\x7b\"ts\":" ++ toString sample.timestamp
  let payload := payload ++ (match sample.temperature with
    | some value => ",\"temp_bme680\":" ++ toString value
    | none => "")
  let payload := payload ++ (match sample.pressure with
    | some value => ",\"press_bme680\":" ++ toString value
    | none => "")
  let payload := payload ++ (match sample.humidity with
    | some value => ",\"hum_bme680\":" ++ toString value
    | none => "")
  let payload := payload ++ (match sample.lux_bh1750 with
    | some value => ",\"lux_bh1750\":" ++ toString value
    | none => "")
  let payload := payload ++ (match sample.lux_veml7700 with
    | some value => ",\"lux_veml7700\":" ++ toString value
    | none => "")
  let payload := payload ++ (match sample.temp_bmp390 with
    | some value => ",\"temp_bmp390\":" ++ toString value
    | none => "")
  let payload := payload ++ (match sample.press_bmp390 with
    | some value => ",\"press_bmp390\":" ++ toString value
    | none => "")
  let payload := payload ++ (match sample.hum_sht40 with
    | some value => ",\"hum_sht40\":" ++ toString value
    | none => "")
  let payload := payload ++ (match sample.temp_sht40 with
    | some value => ",\"temp_sht40\":" ++ toString value
    | none => "")
  payload ++ "\x7d"

/-- The JSON key the spec expects for the gas resistance field. -/
def gas_ohm_key : String := "gas_ohm"

/-- The JSON key the spec expects for the air-quality score field. -/
def aiq_score_key : String := "aiq_score"

/-- Model of heapless spsc Queue of element type T with N slots, the type of
sensors::QUEUE (sensors.rs line 17: Queue of Sample with N = 64).  The crate
documents and implements a ring buffer holding at most N - 1 elements: head is
the dequeue index, tail the enqueue index, and the buffer of N MaybeUninit
slots is modelled as a function to Option (none = never written). -/
structure Spsc (α : Type) (N : Nat) where
  head : Nat
  tail : Nat
  buffer : Nat → Option α

/-- Queue::new(): head = tail = 0, all slots uninitialized. -/
def Spsc.empty (α : Type) (N : Nat) : Spsc α N := ⟨0, 0, fun _ => none⟩

/-- The heapless index increment: (v + 1) % N. -/
def Spsc.increment (N v : Nat) : Nat := (v + 1) % N

/-- heapless spsc enqueue: if incrementing tail would reach head the queue is
full and the value is returned in the error (some x) with the state untouched;
otherwise the value is stored at tail and tail advances. -/
def Spsc.enqueue {α : Type} {N : Nat} (q : Spsc α N) (x : α) :
    Spsc α N × Option α :=
  if Spsc.increment N q.tail = q.head then (q, some x)
  else (⟨q.head, Spsc.increment N q.tail,
    fun j => if j = q.tail then some x else q.buffer j⟩, none)

/-- heapless spsc dequeue: none when head = tail (empty), otherwise the slot
at head is read and head advances (the slot is not cleared, as in the source). -/
def Spsc.dequeue {α : Type} {N : Nat} (q : Spsc α N) : Spsc α N × Option α :=
  if q.head = q.tail then (q, none)
  else (⟨Spsc.increment N q.head, q.tail, q.buffer⟩, q.buffer q.head)

/-- Abstraction relation between a ring-buffer state and the list of queued
elements, oldest first: indices are in range, the element count is below N,
tail sits len slots after head in ring order, and slot (head + i) % N holds
the i-th queued element. -/
def Spsc.Rep {α : Type} {N : Nat} (q : Spsc α N) (l : List α) : Prop :=
  q.head < N ∧ q.tail < N ∧ l.length < N ∧ q.tail = (q.head + l.length) % N ∧
    ∀ i, i < l.length → q.buffer ((q.head + i) % N) = l[i]?

/-- One queue operation of a single-threaded enqueue/dequeue interleaving. -/
inductive QOp (α : Type) where
  | enq (x : α)
  | deq
deriving DecidableEq, Repr

/-- Observable result of one queue operation. -/
inductive QEvent (α : Type) where
  | enqOk (x : α)
  | enqFull (x : α)
  | deqSome (x : α)
  | deqNone
deriving DecidableEq, Repr

/-- Run a list of queue operations on the ring buffer, collecting the
observable result of each operation. -/
def Spsc.runOps {α : Type} {N : Nat} : Spsc α N → List (QOp α) →
    Spsc α N × List (QEvent α)
  | q, [] => (q, [])
  | q, QOp.enq x :: ops =>
    let step := q.enqueue x
    let rest := step.1.runOps ops
    (rest.1, (match step.2 with
      | none => QEvent.enqOk x
      | some y => QEvent.enqFull y) :: rest.2)
  | q, QOp.deq :: ops =>
    let step := q.dequeue
    let rest := step.1.runOps ops
    (rest.1, (match step.2 with
      | none => QEvent.deqNone
      | some y => QEvent.deqSome y) :: rest.2)

/-- Specification-side queue: a plain list bounded by the capacity, enqueue
rejects exactly when the list holds cap elements. -/
def absEnqueue {α : Type} (cap : Nat) (l : List α) (x : α) :
    List α × Option α :=
  if l.length = cap then (l, some x) else (l ++ [x], none)

/-- Specification-side dequeue: first-in element, none when empty. -/
def absDequeue {α : Type} : List α → List α × Option α
  | [] => ([], none)
  | x :: xs => (xs, some x)

/-- Run a list of queue operations on the specification-side list queue. -/
def absRun {α : Type} (cap : Nat) : List α → List (QOp α) →
    List α × List (QEvent α)
  | l, [] => (l, [])
  | l, QOp.enq x :: ops =>
    let step := absEnqueue cap l x
    let rest := absRun cap step.1 ops
    (rest.1, (match step.2 with
      | none => QEvent.enqOk x
      | some y => QEvent.enqFull y) :: rest.2)
  | l, QOp.deq :: ops =>
    let step := absDequeue l
    let rest := absRun cap step.1 ops
    (rest.1, (match step.2 with
      | none => QEvent.deqNone
      | some y => QEvent.deqSome y) :: rest.2)

/-- Values carried by the successful enqueues of an event trace, in order. -/
def okEnqs {α : Type} : List (QEvent α) → List α
  | [] => []
  | QEvent.enqOk x :: evs => x :: okEnqs evs
  | QEvent.enqFull _ :: evs => okEnqs evs
  | QEvent.deqSome _ :: evs => okEnqs evs
  | QEvent.deqNone :: evs => okEnqs evs

/-- Values returned by the successful dequeues of an event trace, in order. -/
def deqVals {α : Type} : List (QEvent α) → List α
  | [] => []
  | QEvent.deqSome x :: evs => x :: deqVals evs
  | QEvent.enqOk _ :: evs => deqVals evs
  | QEvent.enqFull _ :: evs => deqVals evs
  | QEvent.deqNone :: evs => deqVals evs

/-- The Sample Queue of sensors.rs line 17: heapless spsc Queue of Sample
with N = 64 slots, freshly constructed. -/
def sampleQueueEmpty : Spsc Sample 64 := Spsc.empty Sample 64

/-- k consecutive enqueue operations of distinguishable samples. -/
def enqOps (k : Nat) : List (QOp Sample) :=
  (List.range k).map (fun i => QOp.enq (mkSample i))

/-- A sample whose gas resistance and air-quality score are present and every
other optional field absent (timestamp 777, gas_ohm = some 12345,
aiq_score = some 50). -/
def sampleWithGasAiq : Sample :=
  ⟨.V1, 777, none, none, none, none, none, none, none, some 12345, none,
    none, some 50⟩

/-- A sample with every optional field present. -/
def sampleFull : Sample :=
  ⟨.V1, 777, some 21, some 1013, some 45, some 44, some 22, some 1012,
    some 23, some 12345, some 300, some 310, some 50⟩

/-- Concrete test value for the Wi-Fi SSID field. -/
def tSsid : String := "ssid"

/-- Concrete test value for the Wi-Fi password field. -/
def tPassword : String := "pw"

/-- Concrete test value for the MQTT broker field. -/
def tBroker : String := "broker"

/-- Concrete test value for the MQTT client id field. -/
def tClientId : String := "client"

/-- Concrete test value for the MQTT topic field. -/
def tTopic : String := "topic"

/-- An OptionalSettings value with all five required fields set and no
reboot flag. -/
def settingsAllSet : OptionalSettings :=
  ⟨some tSsid, some tPassword, some tBroker, some tClientId, some tTopic,
    none⟩

/-- An OptionalSettings value missing the Wi-Fi SSID. -/
def settingsNoSsid : OptionalSettings :=
  ⟨none, some tPassword, some tBroker, some tClientId, some tTopic, none⟩

/-- Claim C6: command parsing is total and strict — try_from returns the
RebootToReconfigure command exactly on the single-byte payload 48 (ASCII zero)
and a parse error on every other payload (length 0, length 2 or more, or any
other single byte).  Stated as a single closed-form equation, which also
exhibits totality (the embedding is a total function and mutates nothing). -/
theorem c6_theorem (payload : List Nat) :
    Command.try_from payload
      = if payload = [48] then Except.ok Command.rebootToReconfigure
        else Except.error Error.cannotConvertPayload := by
  rcases payload with _ | ⟨a, _ | ⟨b, t⟩⟩
  · rfl
  · by_cases h : a = 48
    · subst h; rfl
    · simp [Command.try_from, h]
  · simp [Command.try_from]

/-- Claim C7 (amended): the gas reference is clamped to one of three
constants (5000 below the lower threshold, 25000 on the middle band, 50000
above the upper threshold), so the gas sub-score 75 * (ref - 5000) / 45000 is
the step function 0 / 33 / 75 of the band — constant within each band, not a
linear interpolation in the gas value. -/
theorem c7_theorem (gas : Nat) :
    gas_score gas
      = if gas < GAS_LOWER_LIMIT then 0
        else if gas < GAS_UPPER_LIMIT then 33 else 75 := by
  simp only [gas_score, gas_ref]
  split_ifs <;> decide

/-- Claim C7 counterexample: the claim says the gas sub-score varies linearly
over 0-75 as gas resistance varies within [5000, 50000); in fact it is 33 at
5000, at the midpoint 27500 and at 49999 (a linear 0-75 ramp would give 0 at
5000 and 74 at 49999). -/
theorem c7_counterexample :
    gas_score 5000 = 33 ∧ gas_score 27500 = 33 ∧ gas_score 49999 = 33 := by
  refine ⟨?_, ?_, ?_⟩ <;> decide

/-- Claim C9 counterexample: at elapsed measurement time 61 s the normal
(post-warm-up) cycle's sleep computation underflows — embassy Duration
subtraction panics (modelled none) instead of proceeding immediately. -/
theorem c9_counterexample : (acquisition_cycle 0 61).2.2 = none := by decide

/-- Claim C9 (amended): the inter-cycle sleep of a normal cycle is the 60 s
target period minus the elapsed measurement time, well-defined (and trivially
non-negative in Nat) exactly when elapsed is at most 60 s; when the
measurement exceeds the period the Duration subtraction underflows and the
task panics (modelled none) rather than proceeding immediately. -/
theorem c9_theorem (elapsed : Nat) :
    (acquisition_cycle 0 elapsed).2.2
      = if elapsed ≤ CYCLE_PERIOD_SECS then some (CYCLE_PERIOD_SECS - elapsed)
        else none := by
  simp [acquisition_cycle, duration_sub]

/-- Helper: the warm-up skip counter before cycle n (0-indexed) is 10 - n,
reaching and staying at 0 from cycle 10 on. -/
theorem skip_before_cycle_eq (n : Nat) :
    skip_before_cycle n = SENSORS_WARMUP_SKIPS - n := by
  induction n with
  | zero => rfl
  | succ k ih =>
    have h : skip_before_cycle (k + 1)
        = (acquisition_cycle (skip_before_cycle k) 0).1 := rfl
    have hS : SENSORS_WARMUP_SKIPS = 10 := rfl
    rw [h, ih]
    by_cases hk : 0 < SENSORS_WARMUP_SKIPS - k
    · simp [acquisition_cycle, hk]
      omega
    · simp [acquisition_cycle, hk]
      omega

/-- Claim C8 counterexample: the claim says each discarded warm-up cycle
waits the same fixed inter-cycle period as a normal sampling cycle; in fact a
warm-up cycle sleeps the fixed 3 s pause while a normal cycle (elapsed 0)
sleeps the 60 s period. -/
theorem c8_counterexample :
    (acquisition_cycle SENSORS_WARMUP_SKIPS 0).2.2 = some WARMUP_PAUSE_SECS
    ∧ (acquisition_cycle 0 0).2.2 = some CYCLE_PERIOD_SECS
    ∧ WARMUP_PAUSE_SECS ≠ CYCLE_PERIOD_SECS := by
  refine ⟨?_, ?_, ?_⟩ <;> decide

/-- Claim C8 (amended): the acquisition loop discards the data of exactly the
first 10 cycles without enqueuing a sample, but each discarded warm-up cycle
sleeps a fixed 3 s pause before the next cycle — not the 60 s inter-cycle
period of a normal sampling cycle; from cycle 10 on every cycle enqueues. -/
theorem c8_theorem (n elapsed : Nat) :
    (n < SENSORS_WARMUP_SKIPS →
      acquisition_cycle (skip_before_cycle n) elapsed
        = (SENSORS_WARMUP_SKIPS - (n + 1), false, some WARMUP_PAUSE_SECS))
    ∧ (SENSORS_WARMUP_SKIPS ≤ n →
      (acquisition_cycle (skip_before_cycle n) elapsed).2.1 = true) := by
  have hS : SENSORS_WARMUP_SKIPS = 10 := rfl
  rw [skip_before_cycle_eq]
  constructor
  · intro h
    have hk : 0 < SENSORS_WARMUP_SKIPS - n := by omega
    simp [acquisition_cycle, hk]
    omega
  · intro h
    have hk : ¬ 0 < SENSORS_WARMUP_SKIPS - n := by omega
    simp [acquisition_cycle, hk]

/-- Claim C8 witness: cycle 0 is a warm-up cycle sleeping 3 s, and cycle 10
(elapsed 5 s) enqueues a sample. -/
theorem c8_witness :
    acquisition_cycle (skip_before_cycle 0) 0
      = (9, false, some WARMUP_PAUSE_SECS)
    ∧ (acquisition_cycle (skip_before_cycle 10) 5).2.1 = true :=
  ⟨(c8_theorem 0 0).1 (by decide), (c8_theorem 10 5).2 (by decide)⟩

/-- Claim C5: transmute promotes an Optional settings value with all five
required fields present and no reboot flag to FilledIn carrying those field
values and reboot_to_reconfigure = false, and leaves an Optional value with
any required field absent unchanged.  (transmute returns some: the none value
is reserved for the modelled unreachable panic.) -/
theorem c5_theorem (s : OptionalSettings) :
    (∀ ssid pw broker cid topic,
      s.wifi_ssid = some ssid → s.wifi_password = some pw →
      s.mqtt_broker = some broker → s.mqtt_client_id = some cid →
      s.mqtt_topic = some topic → s.reboot_to_reconfigure = none →
      SettingsEnum.transmute (.Optional s)
        = some (.FilledIn ⟨ssid, pw, broker, cid, topic, false⟩))
    ∧ ((s.wifi_ssid = none ∨ s.wifi_password = none ∨ s.mqtt_broker = none
        ∨ s.mqtt_client_id = none ∨ s.mqtt_topic = none) →
      SettingsEnum.transmute (.Optional s) = some (.Optional s)) := by
  constructor
  · intro ssid pw broker cid topic h1 h2 h3 h4 h5 h6
    simp [SettingsEnum.transmute, OptionalSettings.is_complete,
      h1, h2, h3, h4, h5, h6]
  · intro h
    rcases h with h | h | h | h | h <;>
      simp [SettingsEnum.transmute, OptionalSettings.is_complete, h]

/-- Claim C5 witness: a concrete complete Optional value transitions to the
expected FilledIn value, and a concrete value missing the SSID does not
transition. -/
theorem c5_witness :
    SettingsEnum.transmute (.Optional settingsAllSet)
      = some (.FilledIn ⟨tSsid, tPassword, tBroker, tClientId, tTopic, false⟩)
    ∧ SettingsEnum.transmute (.Optional settingsNoSsid)
      = some (.Optional settingsNoSsid) :=
  ⟨(c5_theorem settingsAllSet).1 tSsid tPassword tBroker tClientId tTopic
      rfl rfl rfl rfl rfl rfl,
   (c5_theorem settingsNoSsid).2 (Or.inl rfl)⟩

/-- Claim C10: the Optional-to-FilledIn promotion never hits the
unreachable panic — transmute (whose none value models exactly that panic
branch) returns some on every input, because whenever is_complete holds all
five required fields are in fact present and the let-chain succeeds. -/
theorem c10_theorem (se : SettingsEnum) :
    (SettingsEnum.transmute se).isSome = true := by
  cases se with
  | FilledIn s => rfl
  | Optional s =>
    obtain ⟨f1, f2, f3, f4, f5, f6⟩ := s
    cases f1 <;> cases f2 <;> cases f3 <;> cases f4 <;> cases f5 <;>
      simp [SettingsEnum.transmute, OptionalSettings.is_complete]

/-- Helper: closed form of folding the backoff transition over a run of
failures — starting from b with 1 <= b <= 30, after the failures the backoff
variable equals min (2 ^ count * b) 30. -/
theorem backoff_foldl_closed (os : List ConnectOutcome) :
    ∀ b : Nat, 1 ≤ b → b ≤ 30 →
      (∀ o ∈ os, o ≠ ConnectOutcome.connected) →
      os.foldl backoff_after b = min (2 ^ os.length * b) 30 := by
  induction os with
  | nil =>
    intro b hb1 hb30 _
    simp [Nat.min_eq_left hb30]
  | cons o os ih =>
    intro b hb1 hb30 hall
    have ho : o ≠ ConnectOutcome.connected :=
      hall o (List.mem_cons_self o os)
    have hstep : backoff_after b o = min (b * 2) 30 := by
      cases o
      · rfl
      · rfl
      · rfl
      · exact absurd rfl ho
    rw [List.foldl_cons, hstep,
      ih (min (b * 2) 30) (by omega) (by omega)
        (fun o' ho' => hall o' (List.mem_cons_of_mem _ ho'))]
    have hP : 1 ≤ 2 ^ os.length := Nat.one_le_two_pow
    rcases le_or_lt (b * 2) 30 with hc | hc
    · rw [Nat.min_eq_left hc, List.length_cons, pow_succ]
      have hmul : 2 ^ os.length * (b * 2) = 2 ^ os.length * 2 * b := by ring
      rw [hmul]
    · rw [Nat.min_eq_right (le_of_lt hc)]
      have hL : 30 ≤ 2 ^ os.length * 30 := Nat.le_mul_of_pos_left 30 (by omega)
      have hR : 30 ≤ 2 ^ (o :: os).length * b := by
        calc 30 ≤ b * 2 := le_of_lt hc
          _ ≤ 2 ^ os.length * (b * 2) := Nat.le_mul_of_pos_left _ (by omega)
          _ = 2 ^ (o :: os).length * b := by
              rw [List.length_cons, pow_succ]; ring
      rw [Nat.min_eq_right hL, Nat.min_eq_right hR]

/-- Claim C2: in the MQTT session loop, after any run of n - 1 consecutive
failed connection attempts (TCP connect failures and MQTT CONNECT failures
alike) since the last reset, the backoff variable — the delay slept before the
n-th consecutive retry — equals min (2 ^ (n - 1)) 30 seconds, and a successful
CONNECT resets it to 1 second. -/
theorem c2_theorem (outcomes : List ConnectOutcome) (n : Nat) (h1 : 1 ≤ n)
    (h2 : outcomes.length = n - 1)
    (h3 : ∀ o ∈ outcomes, o ≠ ConnectOutcome.connected) :
    outcomes.foldl backoff_after mqtt_initial_backoff = min (2 ^ (n - 1)) 30
    ∧ ∀ b : Nat, backoff_after b ConnectOutcome.connected = 1 := by
  constructor
  · have hc := backoff_foldl_closed outcomes 1 le_rfl (by omega) h3
    simp only [mqtt_initial_backoff]
    rw [hc, h2, Nat.mul_one]
  · intro b; rfl

/-- Claim C2 witness: after two failures (one TCP, one CONNECT poll) the
delay before the third retry is min (2 ^ 2) 30 = 4 seconds, and a successful
CONNECT resets the backoff to 1. -/
theorem c2_witness :
    [ConnectOutcome.tcpConnectFailed, ConnectOutcome.connectPollFailed].foldl
        backoff_after mqtt_initial_backoff = min (2 ^ (3 - 1)) 30
    ∧ ∀ b : Nat, backoff_after b ConnectOutcome.connected = 1 :=
  c2_theorem [ConnectOutcome.tcpConnectFailed, ConnectOutcome.connectPollFailed]
    3 (by decide) (by decide) (by decide)

/-- Helper: for s below 2 * N, s % N either leaves s unchanged (s below N) or
subtracts N once. -/
theorem mod_two_cases (s N : Nat) (h : s < 2 * N) :
    (s % N = s ∧ s < N) ∨ (s % N = s - N ∧ N ≤ s) := by
  rcases Nat.lt_or_ge s N with h1 | h1
  · exact Or.inl ⟨Nat.mod_eq_of_lt h1, h1⟩
  · refine Or.inr ⟨?_, h1⟩
    rw [Nat.mod_eq_sub_mod h1]
    exact Nat.mod_eq_of_lt (by omega)

/-- Helper: the fresh ring buffer represents the empty list. -/
theorem Spsc.rep_empty (α : Type) (N : Nat) (hN : 0 < N) :
    (Spsc.empty α N).Rep [] := by
  refine ⟨hN, hN, by simpa using hN, by simp [Spsc.empty], ?_⟩
  intro i hi
  simp at hi

/-- Helper: ring-buffer enqueue refines list enqueue with capacity N - 1 —
the returned rejection agrees and the new state represents the new list. -/
theorem Spsc.enqueue_rep {α : Type} {N : Nat} {q : Spsc α N} {l : List α}
    (x : α) (h : q.Rep l) :
    (q.enqueue x).2 = (absEnqueue (N - 1) l x).2
    ∧ (q.enqueue x).1.Rep (absEnqueue (N - 1) l x).1 := by
  obtain ⟨h1, h2, h3, h4, h5⟩ := h
  have hN : 0 < N := Nat.lt_of_le_of_lt (Nat.zero_le _) h1
  by_cases hfull : l.length = N - 1
  · have hcheck : Spsc.increment N q.tail = q.head := by
      rw [Spsc.increment, h4, Nat.mod_add_mod, hfull]
      have he : q.head + (N - 1) + 1 = q.head + N := by omega
      rw [he, Nat.add_mod_right, Nat.mod_eq_of_lt h1]
    rw [Spsc.enqueue, absEnqueue, if_pos hcheck, if_pos hfull]
    exact ⟨rfl, h1, h2, h3, h4, h5⟩
  · have hlen : l.length < N - 1 := by omega
    have hcheck : ¬ Spsc.increment N q.tail = q.head := by
      rw [Spsc.increment, h4, Nat.mod_add_mod]
      intro hcon
      rcases mod_two_cases (q.head + l.length + 1) N (by omega) with
        ⟨he, _⟩ | ⟨he, hge⟩ <;> omega
    rw [Spsc.enqueue, absEnqueue, if_neg hcheck, if_neg hfull]
    refine ⟨rfl, h1, Nat.mod_lt _ hN, by simp; omega, ?_, ?_⟩
    · show Spsc.increment N q.tail = (q.head + (l ++ [x]).length) % N
      rw [Spsc.increment, h4, Nat.mod_add_mod, List.length_append,
        List.length_singleton, ← Nat.add_assoc]
    · intro i hi
      rw [List.length_append, List.length_singleton] at hi
      by_cases hil : i < l.length
      · have hslot : (q.head + i) % N ≠ q.tail := by
          rw [h4]
          intro hcon
          rcases mod_two_cases (q.head + i) N (by omega) with
            ⟨he1, hl1⟩ | ⟨he1, hg1⟩ <;>
          rcases mod_two_cases (q.head + l.length) N (by omega) with
            ⟨he2, hl2⟩ | ⟨he2, hg2⟩ <;> omega
        show (if (q.head + i) % N = q.tail then some x
            else q.buffer ((q.head + i) % N)) = (l ++ [x])[i]?
        rw [if_neg hslot, h5 i hil, List.getElem?_append, if_pos hil]
      · have hieq : i = l.length := by omega
        subst hieq
        have hslot : (q.head + l.length) % N = q.tail := h4.symm
        show (if (q.head + l.length) % N = q.tail then some x
            else q.buffer ((q.head + l.length) % N)) = (l ++ [x])[l.length]?
        rw [if_pos hslot, List.getElem?_append_right (Nat.le_refl _)]
        simp

/-- Helper: ring-buffer dequeue refines list dequeue — the returned element
agrees and the new state represents the tail of the list. -/
theorem Spsc.dequeue_rep {α : Type} {N : Nat} {q : Spsc α N} {l : List α}
    (h : q.Rep l) :
    (q.dequeue).2 = (absDequeue l).2
    ∧ (q.dequeue).1.Rep (absDequeue l).1 := by
  obtain ⟨h1, h2, h3, h4, h5⟩ := h
  have hN : 0 < N := Nat.lt_of_le_of_lt (Nat.zero_le _) h1
  cases l with
  | nil =>
    have hempty : q.head = q.tail := by
      rw [h4]
      simp [Nat.mod_eq_of_lt h1]
    rw [Spsc.dequeue, if_pos hempty, absDequeue]
    exact ⟨rfl, h1, h2, h3, h4, h5⟩
  | cons y ys =>
    rw [List.length_cons] at h3 h4
    have hne : ¬ q.head = q.tail := by
      intro hcon
      rw [h4] at hcon
      rcases mod_two_cases (q.head + (ys.length + 1)) N (by omega) with
        ⟨he, _⟩ | ⟨he, hge⟩ <;> omega
    rw [Spsc.dequeue, if_neg hne, absDequeue]
    show q.buffer q.head = some y
      ∧ (⟨Spsc.increment N q.head, q.tail, q.buffer⟩ : Spsc α N).Rep ys
    constructor
    · have h0 := h5 0 (by simp)
      simpa [Nat.mod_eq_of_lt h1] using h0
    · refine ⟨Nat.mod_lt _ hN, h2, by omega, ?_, ?_⟩
      · show q.tail = (Spsc.increment N q.head + ys.length) % N
        rw [Spsc.increment, Nat.mod_add_mod, h4]
        congr 1
        omega
      · intro i hi
        have hi' : i < ys.length := hi
        show q.buffer ((Spsc.increment N q.head + i) % N) = ys[i]?
        have hwin := h5 (i + 1) (by simp; omega)
        rw [Spsc.increment, Nat.mod_add_mod]
        have harg : q.head + 1 + i = q.head + (i + 1) := by omega
        rw [harg, hwin]
        simp

/-- Helper: running any operation list on the ring buffer from a state
representing l produces the same event trace as the list queue with capacity
N - 1, and the final states are again related. -/
theorem Spsc.runOps_sim {α : Type} {N : Nat} (ops : List (QOp α)) :
    ∀ (q : Spsc α N) (l : List α), q.Rep l →
      (q.runOps ops).2 = (absRun (N - 1) l ops).2
      ∧ (q.runOps ops).1.Rep (absRun (N - 1) l ops).1 := by
  induction ops with
  | nil => exact fun q l h => ⟨rfl, h⟩
  | cons op ops ih =>
    intro q l h
    cases op with
    | enq x =>
      have hstep := Spsc.enqueue_rep x h
      have hrest := ih (q.enqueue x).1 (absEnqueue (N - 1) l x).1 hstep.2
      simp only [Spsc.runOps, absRun]
      exact ⟨by rw [hstep.1, hrest.1], hrest.2⟩
    | deq =>
      have hstep := Spsc.dequeue_rep h
      have hrest := ih (q.dequeue).1 (absDequeue l).1 hstep.2
      simp only [Spsc.runOps, absRun]
      exact ⟨by rw [hstep.1, hrest.1], hrest.2⟩

/-- Helper: the list-queue run satisfies the conservation law — the starting
content followed by the successfully enqueued values equals the dequeued
values followed by the final content. -/
theorem absRun_inv {α : Type} (cap : Nat) (ops : List (QOp α)) :
    ∀ l : List α,
      l ++ okEnqs (absRun cap l ops).2
        = deqVals (absRun cap l ops).2 ++ (absRun cap l ops).1 := by
  induction ops with
  | nil => intro l; simp [absRun, okEnqs, deqVals]
  | cons op ops ih =>
    intro l
    cases op with
    | enq x =>
      by_cases hfull : l.length = cap
      · simp only [absRun, absEnqueue, if_pos hfull, okEnqs, deqVals]
        exact ih l
      · simp only [absRun, absEnqueue, if_neg hfull, okEnqs, deqVals]
        have hi := ih (l ++ [x])
        rw [List.append_assoc] at hi
        simpa using hi
    | deq =>
      cases l with
      | nil =>
        simp only [absRun, absDequeue, okEnqs, deqVals]
        exact ih []
      | cons y ys =>
        simp only [absRun, absDequeue, okEnqs, deqVals, List.cons_append]
        rw [ih ys]

/-- Claim C4: for every interleaving of single-threaded enqueue and dequeue
calls on the Sample Queue, the dequeued samples are exactly the successfully
enqueued samples in their enqueue order (a prefix of them, consumed FIFO), and
a dequeue performed when the queue is empty (everything successfully enqueued
was already dequeued) returns none. -/
theorem c4_theorem (ops : List (QOp Sample)) :
    deqVals (sampleQueueEmpty.runOps ops).2
      = (okEnqs (sampleQueueEmpty.runOps ops).2).take
          (deqVals (sampleQueueEmpty.runOps ops).2).length
    ∧ (okEnqs (sampleQueueEmpty.runOps ops).2
          = deqVals (sampleQueueEmpty.runOps ops).2
        → ((sampleQueueEmpty.runOps ops).1.dequeue).2 = none) := by
  have hrep : sampleQueueEmpty.Rep [] := Spsc.rep_empty Sample 64 (by omega)
  have hsim := Spsc.runOps_sim ops sampleQueueEmpty [] hrep
  have hinv := absRun_inv (64 - 1) ops ([] : List Sample)
  rw [List.nil_append] at hinv
  have hev : (sampleQueueEmpty.runOps ops).2 = (absRun (64 - 1) [] ops).2 :=
    hsim.1
  constructor
  · rw [hev, hinv]
    rw [List.take_left]
  · intro hok
    rw [hev] at hok
    have hlf : (absRun (64 - 1) ([] : List Sample) ops).1 = [] := by
      rw [hinv] at hok
      have hlen := congrArg List.length hok
      rw [List.length_append] at hlen
      have h0 : (absRun (64 - 1) ([] : List Sample) ops).1.length = 0 := by
        omega
      exact List.eq_nil_of_length_eq_zero h0
    have hrepf := hsim.2
    rw [hlf] at hrepf
    obtain ⟨hh1, _, _, hh4, _⟩ := hrepf
    have hempty : (sampleQueueEmpty.runOps ops).1.head
        = (sampleQueueEmpty.runOps ops).1.tail := by
      rw [hh4]
      simp [Nat.mod_eq_of_lt hh1]
    rw [Spsc.dequeue, if_pos hempty]

/-- Claim C4 witness: on the concrete interleaving enqueue, dequeue, dequeue,
the dequeued samples are the take-prefix of the enqueued ones, and the final
dequeue on the emptied queue returns none. -/
theorem c4_witness :
    deqVals (sampleQueueEmpty.runOps [QOp.enq (mkSample 1), QOp.deq]).2
      = (okEnqs (sampleQueueEmpty.runOps [QOp.enq (mkSample 1), QOp.deq]).2).take
          (deqVals (sampleQueueEmpty.runOps [QOp.enq (mkSample 1), QOp.deq]).2).length
    ∧ ((sampleQueueEmpty.runOps [QOp.enq (mkSample 1), QOp.deq]).1.dequeue).2
        = none :=
  ⟨(c4_theorem [QOp.enq (mkSample 1), QOp.deq]).1,
   (c4_theorem [QOp.enq (mkSample 1), QOp.deq]).2 (by decide)⟩

set_option maxRecDepth 100000 in
/-- Claim C3 counterexample: the claim says 64 consecutive enqueues into the
empty Sample Queue all succeed; in fact the 64th enqueue already fails,
returning the rejected sample (heapless spsc Queue with N slots holds at most
N - 1 elements). -/
theorem c3_counterexample :
    ((sampleQueueEmpty.runOps (enqOps 64)).2).getLast?
      = some (QEvent.enqFull (mkSample 63)) := by
  decide

set_option maxRecDepth 100000 in
/-- Claim C3 (amended): the Sample Queue holds at most 63 samples — starting
from the empty queue, 63 consecutive enqueues all succeed, the 64th enqueue
fails returning the rejected sample, and any failed enqueue leaves the queue
state (hence its contents and their order) unchanged. -/
theorem c3_theorem :
    (sampleQueueEmpty.runOps (enqOps 63)).2
        = (List.range 63).map (fun i => QEvent.enqOk (mkSample i))
    ∧ (sampleQueueEmpty.runOps (enqOps 63)).1.enqueue (mkSample 63)
        = ((sampleQueueEmpty.runOps (enqOps 63)).1, some (mkSample 63))
    ∧ (∀ (q : Spsc Sample 64) (x : Sample),
        (q.enqueue x).2 = some x → (q.enqueue x).1 = q) := by
  refine ⟨by decide, rfl, ?_⟩
  intro q x h
  by_cases hfull : Spsc.increment 64 q.tail = q.head
  · simp [Spsc.enqueue, hfull]
  · simp [Spsc.enqueue, hfull] at h

set_option maxRecDepth 100000 in
/-- Claim C3 witness: the failed 64th enqueue leaves the full queue state
unchanged. -/
theorem c3_witness :
    ((sampleQueueEmpty.runOps (enqOps 63)).1.enqueue (mkSample 63)).1
      = (sampleQueueEmpty.runOps (enqOps 63)).1 := by
  refine c3_theorem.2.2 _ _ ?_
  rw [c3_theorem.2.1]

/-- Claim C1: the spec says the published payload contains the timestamp and
every present sensor field; the code's build_payload never emits the
gas_ohm or aiq_score fields at all — a sample carrying both yields a payload
holding only the timestamp, and even a sample with every optional field
present yields a payload whose keys are the nine hard-coded ones (three of
which, temp_bme680 / press_bme680 / hum_bme680, do not even exist on struct
Sample — see the build_payload doc comment). -/
theorem c1_theorem :
    sampleWithGasAiq.gas_ohm = some 12345
    ∧ sampleWithGasAiq.aiq_score = some 50
    ∧ build_payload sampleWithGasAiq = "\x7b\"ts\":777\x7d"
    ∧ build_payload sampleFull
        = "\x7b\"ts\":777,\"temp_bme680\":21,\"press_bme680\":1013,\"hum_bme680\":45,\"lux_bh1750\":310,\"lux_veml7700\":300,\"temp_bmp390\":23,\"press_bmp390\":1012,\"hum_sht40\":44,\"temp_sht40\":22\x7d" := by
  refine ⟨rfl, rfl, ?_, ?_⟩ <;> rfl

end SensorsNode
